import Mathlib

/-!
# MiniVenmo: a shallow embedding of `src/main.py`

This file embeds the data model and the operations of the MiniVenmo
peer-to-peer payment program in Lean 4 and proves properties about them.

Modelling conventions:

* Python `float` amounts and balances are modelled as exact rationals `ℚ`.
* An amount argument that is parsed with `float(...)` in the source is
  modelled as `Option ℚ`: `none` stands for a string that does not parse
  to a number (Python raises `ValueError`), `some q` for a value parsing
  to the number `q`.
* Python exceptions are modelled with `Except`.  An operation that
  mutates objects returns `Except (Err × σ) σ'` where the error value
  carries the state of the touched objects *at the moment the exception
  is raised*, so that "no partial mutation before an error" is a theorem
  about the embedding, not an assumption baked into it.
* `uuid.uuid4()` produces a fresh opaque identifier; it is modelled by a
  monotone counter (`nextId` in `State`), which preserves the only
  relevant property, freshness.
* `Payment` and `FriendshipLog` hold references to `User` objects and
  render their `username` fields, which are immutable after
  construction; the embedding therefore stores the usernames directly.
* The `friends` list holds references to `User` objects, used only for
  membership; the embedding stores the usernames.
-/

set_option linter.dupNamespace false

namespace MiniVenmoModel

/-- The exceptions of `main.py`: `UsernameException`, the `PaymentException`
messages, the `CreditCardException` messages, and the `ValueError`s raised
by `float(...)` and by `add_to_balance`.  `badIndex` does not correspond to
a Python exception: it tags an operation of the state machine that names a
user that does not exist (no such call can be written in Python, where
operations are invoked on objects); it leaves the state unchanged. -/
inductive Err
  | usernameNotValid
  | valueErrorFloat
  | valueErrorAmount
  | sameUser
  | insufficientBalance
  | invalidAmount
  | invalidAmountNumber
  | noCreditCard
  | multipleCreditCards
  | invalidCreditCard
  | badIndex
  deriving Repr, DecidableEq

/-- `Payment.__init__`: unique id, amount, actor, target (stored as their
immutable usernames), note. -/
structure Payment where
  id : Nat
  amount : ℚ
  actor : String
  target : String
  note : String
  deriving Repr, DecidableEq

/-- `FriendshipLog.__init__`: unique id, the two users (usernames), status. -/
structure FriendshipLog where
  id : Nat
  user1 : String
  user2 : String
  status : String
  deriving Repr, DecidableEq

/-- `FriendshipLog.STATUS_ADDED` -/
def STATUS_ADDED : String := "added"

/-- The abstract class `FeedLog` with its two concrete subclasses, as a sum
type. -/
inductive FeedLog
  | payment (p : Payment)
  | friendship (f : FriendshipLog)
  deriving Repr, DecidableEq

/-- Python `f"{x:.2f}"` applied to a non-negative amount.  The program only
ever formats amounts that are an exact number of cents (so the rounding
mode of the reference implementation is not exercised); rounding to the
nearest cent is used here. -/
def formatAmount (q : ℚ) : String :=
  let cents : Int := Int.floor (q * 100 + 1 / 2)
  let whole := cents / 100
  let frac := (cents % 100).toNat
  let fracStr := if frac < 10 then "0" ++ toString frac else toString frac
  toString whole ++ "." ++ fracStr

/-- `Payment.get_feed_msg` / `FriendshipLog.get_feed_msg`. -/
def FeedLog.get_feed_msg : FeedLog → String
  | .payment p =>
      p.actor ++ " paid " ++ p.target ++ " $" ++ formatAmount p.amount
        ++ " for " ++ p.note
  | .friendship f =>
      f.user1 ++ " " ++ f.status ++ " " ++ f.user2 ++ " as a friend."

/-- One character of the class `[A-Za-z0-9_\-]` (ASCII letters, digits,
underscore, hyphen). -/
def usernameChar (c : Char) : Bool :=
  c.isUpper || c.isLower || c.isDigit || c = '_' || c = '-'

/-- The regex body `[A-Za-z0-9_\-]{4,15}` matched against an entire string:
between 4 and 15 characters, all from the class. -/
def matchesCore (s : String) : Bool :=
  4 ≤ s.length && s.length ≤ 15 && s.data.all usernameChar

/-- `User._is_valid_username`:
`re.match("^[A-Za-z0-9_\\-]{4,15}$", username)`.  `re.match` anchors the
match at the start of the string, and Python's `$` matches at the end of
the string **or just before a newline that is the last character**.  The
class does not contain `'\n'`, so the pattern matches `s` exactly when the
core matches all of `s`, or the last character of `s` is a newline and
the core matches everything before it. -/
def is_valid_username (s : String) : Bool :=
  matchesCore s || (s.data.getLast? = some '\n' && matchesCore (s.dropRight 1))

/-- `User._is_valid_credit_card`: membership in the fixed whitelist. -/
def is_valid_credit_card (n : String) : Bool :=
  n = "4111111111111111" || n = "4242424242424242"

/-- The mutable state of a `User` object. -/
structure User where
  username : String
  credit_card_number : Option String := none
  balance : ℚ := 0
  feed : List FeedLog := []
  friends : List String := []
  deriving Repr, DecidableEq

/-- `User.__init__(username)`: fields start at `None` / `0.0` / `[]`; the
username is validated and stored, or `UsernameException` is raised and no
user object is produced. -/
def User.init (username : String) : Except Err User :=
  if is_valid_username username then
    .ok { username := username }
  else
    .error .usernameNotValid

/-- `User.retrieve_feed`. -/
def User.retrieve_feed (u : User) : List String :=
  u.feed.map FeedLog.get_feed_msg

/-- `User.add_to_balance(amount)`: `float(amount)` (a non-numeric string
raises `ValueError`, modelled by `none`), then the positivity gate, then
the credit.  The error carries the user at the moment of the raise. -/
def User.add_to_balance (u : User) (amount : Option ℚ) :
    Except (Err × User) User :=
  match amount with
  | none => .error (.valueErrorFloat, u)
  | some a =>
      if a ≤ 0 then .error (.valueErrorAmount, u)
      else .ok { u with balance := u.balance + a }

/-- `User.add_credit_card(credit_card_number)`. -/
def User.add_credit_card (u : User) (credit_card_number : String) :
    Except (Err × User) User :=
  if u.credit_card_number.isSome then
    .error (.multipleCreditCards, u)
  else if is_valid_credit_card credit_card_number then
    .ok { u with credit_card_number := some credit_card_number }
  else
    .error (.invalidCreditCard, u)

/-- `User.pay_with_balance(target, amount, note)`.  The debit happens
before `target.add_to_balance(amount)`, so an error raised by the latter
would leave the debit in place: the embedding surfaces that by carrying
the already-debited actor in the error value (the branch is in fact
unreachable because `amount > 0` at that point, which is proved below,
not assumed).  `pid` models the fresh `uuid` of the created `Payment`. -/
def User.pay_with_balance (self target : User) (amount : ℚ) (note : String)
    (pid : Nat) : Except (Err × User × User) (User × User × Payment) :=
  if self.username = target.username then
    .error (.sameUser, self, target)
  else if amount ≤ 0 then
    .error (.invalidAmount, self, target)
  else if self.balance < amount then
    .error (.insufficientBalance, self, target)
  else
    let self' : User := { self with balance := self.balance - amount }
    let payment : Payment :=
      { id := pid, amount := amount, actor := self.username,
        target := target.username, note := note }
    match target.add_to_balance (some amount) with
    | .error (e, t') => .error (e, self', t')
    | .ok t' => .ok (self', t', payment)

/-- `User.pay_with_card(target, amount, note)`: `float(amount)` first
(uncaught `ValueError` on a non-numeric string), then the same-user check,
the amount check, the card check; `_charge_credit_card` is a stub with no
effect; then the `Payment` is created and the target credited. -/
def User.pay_with_card (self target : User) (amount : Option ℚ)
    (note : String) (pid : Nat) :
    Except (Err × User × User) (User × User × Payment) :=
  match amount with
  | none => .error (.valueErrorFloat, self, target)
  | some a =>
      if self.username = target.username then
        .error (.sameUser, self, target)
      else if a ≤ 0 then
        .error (.invalidAmount, self, target)
      else
        match self.credit_card_number with
        | none => .error (.noCreditCard, self, target)
        | some _ =>
            let payment : Payment :=
              { id := pid, amount := a, actor := self.username,
                target := target.username, note := note }
            match target.add_to_balance (some a) with
            | .error (e, t') => .error (e, self, t')
            | .ok t' => .ok (self, t', payment)

/-- The feed-append epilogue of `User.pay`: on success the payment is
appended to both the payer's and the payee's feed (same instance). -/
def feedBoth (r : Except (Err × User × User) (User × User × Payment)) :
    Except (Err × User × User) (User × User × Payment) :=
  match r with
  | .error e => .error e
  | .ok (a, t, p) =>
      .ok ({ a with feed := a.feed ++ [.payment p] },
           { t with feed := t.feed ++ [.payment p] }, p)

/-- `User.pay(target, amount, note)`: parse the amount (`ValueError` is
caught and re-raised as `INVALID_AMOUNT_NUMBER_ERROR`), reject
non-positive amounts, then route: balance path iff
`self.balance >= amount`, else card path; on success append the payment
to both feeds and return it. -/
def User.pay (self target : User) (amount : Option ℚ) (note : String)
    (pid : Nat) : Except (Err × User × User) (User × User × Payment) :=
  match amount with
  | none => .error (.invalidAmountNumber, self, target)
  | some a =>
      if a ≤ 0 then
        .error (.invalidAmount, self, target)
      else if self.balance ≥ a then
        feedBoth (self.pay_with_balance target a note pid)
      else
        feedBoth (self.pay_with_card target (some a) note pid)

/-- `MiniVenmo.create_user(username, balance, credit_card_number)`. -/
def create_user (username : String) (balance : Option ℚ)
    (credit_card_number : String) : Except Err User :=
  match User.init username with
  | .error e => .error e
  | .ok u =>
      match u.add_to_balance balance with
      | .error (e, _) => .error e
      | .ok u =>
          match u.add_credit_card credit_card_number with
          | .error (e, _) => .error e
          | .ok u => .ok u

/-- The global state: the user objects alive in the process, and the
counter modelling fresh `uuid`s. -/
structure State where
  users : List User
  nextId : Nat := 0
  deriving Repr, DecidableEq

/-- The public operations of the `User` class, as calls on the users of a
`State`, identified by position.  A payment-like call `op i j …` is the
Python call `users[i].method(users[j], …)`; `i = j` is a call passing the
same object for both roles. -/
inductive Op
  | add_to_balance (i : Nat) (amount : Option ℚ)
  | add_credit_card (i : Nat) (credit_card_number : String)
  | pay (i j : Nat) (amount : Option ℚ) (note : String)
  | pay_with_balance (i j : Nat) (amount : ℚ) (note : String)
  | pay_with_card (i j : Nat) (amount : Option ℚ) (note : String)
  | add_friend (i j : Nat)

/-- Run a two-user method of `User` on `users[i]` and `users[j]` and write
the resulting objects back.  With `i = j` both roles read the same list
entry, exactly as a Python call passing the object to itself; every path
of the payment methods that mutates is preceded by the username-equality
check, which fires whenever `i = j`, so threading the value twice is
faithful (proved below, not assumed). -/
def stepPair (s : State) (i j : Nat)
    (f : User → User → Nat → Except (Err × User × User) (User × User × Payment)) :
    Except (Err × State) State :=
  match s.users.get? i, s.users.get? j with
  | some a, some t =>
      match f a t s.nextId with
      | .error (e, a', t') =>
          .error (e, { users := (s.users.set i a').set j t', nextId := s.nextId })
      | .ok (a', t', _) =>
          .ok { users := (s.users.set i a').set j t', nextId := s.nextId + 1 }
  | _, _ => .error (.badIndex, s)

/-- One public call on the state.  Errors carry the state at the moment
the exception is raised.  `add_friend` is `User.add_friend`: append the
friend to the caller's friend list, create one `FriendshipLog`, append the
same instance to both users' feeds; a self-call appends it twice to the
caller's own feed. -/
def stepR (s : State) : Op → Except (Err × State) State
  | .add_to_balance i a =>
      match s.users.get? i with
      | none => .error (.badIndex, s)
      | some u =>
          match u.add_to_balance a with
          | .error (e, u') =>
              .error (e, { users := s.users.set i u', nextId := s.nextId })
          | .ok u' => .ok { users := s.users.set i u', nextId := s.nextId }
  | .add_credit_card i c =>
      match s.users.get? i with
      | none => .error (.badIndex, s)
      | some u =>
          match u.add_credit_card c with
          | .error (e, u') =>
              .error (e, { users := s.users.set i u', nextId := s.nextId })
          | .ok u' => .ok { users := s.users.set i u', nextId := s.nextId }
  | .pay i j a note => stepPair s i j (fun x y pid => x.pay y a note pid)
  | .pay_with_balance i j q note =>
      stepPair s i j (fun x y pid => x.pay_with_balance y q note pid)
  | .pay_with_card i j a note =>
      stepPair s i j (fun x y pid => x.pay_with_card y a note pid)
  | .add_friend i j =>
      match s.users.get? i, s.users.get? j with
      | some self, some nf =>
          let log : FriendshipLog :=
            { id := s.nextId, user1 := self.username, user2 := nf.username,
              status := STATUS_ADDED }
          if i = j then
            let u' : User :=
              { self with friends := self.friends ++ [self.username],
                          feed := (self.feed ++ [.friendship log])
                                    ++ [.friendship log] }
            .ok { users := s.users.set i u', nextId := s.nextId + 1 }
          else
            let self' : User :=
              { self with friends := self.friends ++ [nf.username],
                          feed := self.feed ++ [.friendship log] }
            let nf' : User := { nf with feed := nf.feed ++ [.friendship log] }
            .ok { users := (s.users.set i self').set j nf',
                  nextId := s.nextId + 1 }
      | _, _ => .error (.badIndex, s)

/-- One call with the exception caught by the driver: on a raise the
program continues from the state at the raise (as the demo entry point
does with its `try`/`except`). -/
def stepAbsorb (s : State) (op : Op) : State :=
  match stepR s op with
  | .ok s' => s'
  | .error (_, s') => s'

/-- Run a sequence of calls, exceptions caught by the driver. -/
def runOps (s : State) (ops : List Op) : State :=
  ops.foldl stepAbsorb s

/-- `MiniVenmo.run` up to the two demo payments: Bobby seeded with balance
5.00 and a card, Carol with 10.00 and a card, then
`bobby.pay(carol, 5.00, "Coffee")` and `carol.pay(bobby, 15.00, "Lunch")`. -/
def demoInitial : State :=
  { users :=
      [ { username := "Bobby", credit_card_number := some "4111111111111111",
          balance := 5 },
        { username := "Carol", credit_card_number := some "4242424242424242",
          balance := 10 } ],
    nextId := 0 }

/-- The state after the first demo payment (`Coffee`). -/
def demoAfterCoffee : State :=
  runOps demoInitial [.pay 0 1 (some 5) "Coffee"]

/-- The state after both demo payments (`Coffee` then `Lunch`). -/
def demoAfterLunch : State :=
  runOps demoAfterCoffee [.pay 1 0 (some 15) "Lunch"]

/-! ## Helper lemmas -/

/-- Writing back the element a list already holds leaves it unchanged. -/
theorem set_self_of_get {α : Type} {l : List α} {i : Nat} {a : α}
    (h : l.get? i = some a) : l.set i a = l := by
  induction l generalizing i with
  | nil => simp [List.get?] at h
  | cons x xs ih =>
      cases i with
      | zero =>
          simp only [List.get?] at h
          cases h
          rfl
      | succ n =>
          simp only [List.get?] at h
          simp [List.set, ih h]

/-- A property of every element survives `List.set` with an element that has
the property. -/
theorem forall_mem_set {α : Type} {P : α → Prop} {l : List α} {i : Nat}
    {v : α} (h : ∀ u ∈ l, P u) (hv : P v) : ∀ u ∈ l.set i v, P u := by
  intro u hu
  rcases List.mem_or_eq_of_mem_set hu with h1 | h2
  · exact h u h1
  · exact h2 ▸ hv

/-- Injectivity of a one-user error value. -/
theorem error_one_inj {e e' : Err} {u u' : User}
    (h : (Except.error (e, u) : Except (Err × User) User) = .error (e', u')) :
    u' = u := by
  simp only [Except.error.injEq, Prod.mk.injEq] at h
  exact h.2.symm

/-- Injectivity of a two-user error value. -/
theorem error_pair_inj {e e' : Err} {a t a' t' : User}
    (h : (Except.error (e, a, t) :
        Except (Err × User × User) (User × User × Payment)) = .error (e', a', t')) :
    a' = a ∧ t' = t := by
  simp only [Except.error.injEq, Prod.mk.injEq] at h
  exact ⟨h.2.1.symm, h.2.2.symm⟩

/-- `add_to_balance` with a positive numeric amount always succeeds and
credits exactly that amount. -/
theorem add_to_balance_pos (u : User) {q : ℚ} (h : 0 < q) :
    u.add_to_balance (some q) = .ok { u with balance := u.balance + q } := by
  simp [User.add_to_balance, not_le.2 h]

/-- When `add_to_balance` raises, the carried user is the unmutated input. -/
theorem add_to_balance_error {u u' : User} {a : Option ℚ} {e : Err}
    (h : u.add_to_balance a = .error (e, u')) : u' = u := by
  cases a with
  | none =>
      simp only [User.add_to_balance] at h
      exact error_one_inj h
  | some q =>
      simp only [User.add_to_balance] at h
      split_ifs at h with h1
      exact error_one_inj h

/-- When `add_to_balance` succeeds, the amount was a positive number and the
balance was credited by exactly that amount. -/
theorem add_to_balance_ok {u u' : User} {a : Option ℚ}
    (h : u.add_to_balance a = .ok u') :
    ∃ q, a = some q ∧ 0 < q ∧ u' = { u with balance := u.balance + q } := by
  cases a with
  | none => simp [User.add_to_balance] at h
  | some q =>
      simp only [User.add_to_balance] at h
      split_ifs at h with h1
      simp only [Except.ok.injEq] at h
      exact ⟨q, rfl, not_le.1 h1, h.symm⟩

/-- When `add_credit_card` raises, the carried user is the unmutated input. -/
theorem add_credit_card_error {u u' : User} {c : String} {e : Err}
    (h : u.add_credit_card c = .error (e, u')) : u' = u := by
  unfold User.add_credit_card at h
  split_ifs at h with h1 h2
  · exact error_one_inj h
  · exact error_one_inj h

/-- When `pay_with_balance` raises, both carried users are the unmutated
inputs: every raise happens before the debit (the late raise inside
`target.add_to_balance` is unreachable because the amount is positive
there). -/
theorem pay_with_balance_error {a t a' t' : User} {q : ℚ} {note : String}
    {pid : Nat} {e : Err}
    (h : a.pay_with_balance t q note pid = .error (e, a', t')) :
    a' = a ∧ t' = t := by
  unfold User.pay_with_balance at h
  split_ifs at h with h1 h2 h3
  · exact error_pair_inj h
  · exact error_pair_inj h
  · exact error_pair_inj h
  · rw [add_to_balance_pos t (not_le.1 h2)] at h
    simp at h

/-- When `pay_with_card` raises, both carried users are the unmutated
inputs. -/
theorem pay_with_card_error {a t a' t' : User} {am : Option ℚ}
    {note : String} {pid : Nat} {e : Err}
    (h : a.pay_with_card t am note pid = .error (e, a', t')) :
    a' = a ∧ t' = t := by
  cases am with
  | none =>
      simp only [User.pay_with_card] at h
      exact error_pair_inj h
  | some q =>
      simp only [User.pay_with_card] at h
      split_ifs at h with h1 h2
      · exact error_pair_inj h
      · exact error_pair_inj h
      · cases hc : a.credit_card_number with
        | none =>
            rw [hc] at h
            exact error_pair_inj h
        | some c =>
            rw [hc, add_to_balance_pos t (not_le.1 h2)] at h
            simp at h

/-- `feedBoth` maps errors to the same errors. -/
theorem feedBoth_error {r : Except (Err × User × User) (User × User × Payment)}
    {x : Err × User × User} (h : feedBoth r = .error x) : r = .error x := by
  cases r with
  | error y => simpa [feedBoth] using h
  | ok v =>
      obtain ⟨a, t, p⟩ := v
      simp [feedBoth] at h

/-- When `pay` raises, both carried users are the unmutated inputs. -/
theorem pay_error {a t a' t' : User} {am : Option ℚ} {note : String}
    {pid : Nat} {e : Err}
    (h : a.pay t am note pid = .error (e, a', t')) : a' = a ∧ t' = t := by
  cases am with
  | none =>
      simp only [User.pay] at h
      exact error_pair_inj h
  | some q =>
      simp only [User.pay] at h
      split_ifs at h with h1 h2
      · exact error_pair_inj h
      · exact pay_with_balance_error (feedBoth_error h)
      · exact pay_with_card_error (feedBoth_error h)

/-- A self-call of `pay` (the same object in both roles, hence equal
usernames) with a positive numeric amount always raises `SAME_USER_ERROR`
with both users unmutated, on both routing branches. -/
theorem pay_self (u t : User) (hn : u.username = t.username) {q : ℚ}
    (h0 : 0 < q) (note : String) (pid : Nat) :
    u.pay t (some q) note pid = .error (.sameUser, u, t) := by
  simp only [User.pay]
  rw [if_neg (not_le.2 h0)]
  split_ifs with hb
  · simp [User.pay_with_balance, hn, feedBoth]
  · simp [User.pay_with_card, hn, feedBoth]

/-- When `add_credit_card` succeeds, the balance is untouched. -/
theorem add_credit_card_ok {u u' : User} {c : String}
    (h : u.add_credit_card c = .ok u') : u'.balance = u.balance := by
  unfold User.add_credit_card at h
  split_ifs at h with h1 h2
  simp only [Except.ok.injEq] at h
  rw [← h]

/-- Every user's balance is non-negative. -/
def balancesNonneg (s : State) : Prop := ∀ u ∈ s.users, 0 ≤ u.balance

/-- Both users carried by a two-user method result (in the success and in
the raise case alike) have non-negative balances. -/
def pairNonneg (r : Except (Err × User × User) (User × User × Payment)) :
    Prop :=
  match r with
  | .error (_, a, t) => 0 ≤ a.balance ∧ 0 ≤ t.balance
  | .ok (a, t, _) => 0 ≤ a.balance ∧ 0 ≤ t.balance

/-- Appending feed entries does not change balances. -/
theorem feedBoth_pairNonneg
    {r : Except (Err × User × User) (User × User × Payment)}
    (h : pairNonneg r) : pairNonneg (feedBoth r) := by
  cases r with
  | error e => exact h
  | ok v =>
      obtain ⟨a, t, p⟩ := v
      exact h

/-- `pay_with_balance` keeps both balances non-negative in every outcome:
the debit only happens after the insufficient-balance check. -/
theorem pay_with_balance_nonneg (a t : User) (q : ℚ) (note : String)
    (pid : Nat) (ha : 0 ≤ a.balance) (ht : 0 ≤ t.balance) :
    pairNonneg (a.pay_with_balance t q note pid) := by
  unfold User.pay_with_balance
  split_ifs with h1 h2 h3
  · exact ⟨ha, ht⟩
  · exact ⟨ha, ht⟩
  · exact ⟨ha, ht⟩
  · rw [add_to_balance_pos t (not_le.1 h2)]
    exact ⟨sub_nonneg.2 (not_lt.1 h3), add_nonneg ht (not_le.1 h2).le⟩

/-- `pay_with_card` keeps both balances non-negative in every outcome. -/
theorem pay_with_card_nonneg (a t : User) (am : Option ℚ) (note : String)
    (pid : Nat) (ha : 0 ≤ a.balance) (ht : 0 ≤ t.balance) :
    pairNonneg (a.pay_with_card t am note pid) := by
  cases am with
  | none => exact ⟨ha, ht⟩
  | some q =>
      simp only [User.pay_with_card]
      split_ifs with h1 h2
      · exact ⟨ha, ht⟩
      · exact ⟨ha, ht⟩
      · cases hc : a.credit_card_number with
        | none => exact ⟨ha, ht⟩
        | some c =>
            rw [add_to_balance_pos t (not_le.1 h2)]
            exact ⟨ha, add_nonneg ht (not_le.1 h2).le⟩

/-- `pay` keeps both balances non-negative in every outcome. -/
theorem pay_nonneg (a t : User) (am : Option ℚ) (note : String) (pid : Nat)
    (ha : 0 ≤ a.balance) (ht : 0 ≤ t.balance) :
    pairNonneg (a.pay t am note pid) := by
  cases am with
  | none => exact ⟨ha, ht⟩
  | some q =>
      simp only [User.pay]
      split_ifs with h1 h2
      · exact ⟨ha, ht⟩
      · exact feedBoth_pairNonneg (pay_with_balance_nonneg a t q note pid ha ht)
      · exact feedBoth_pairNonneg (pay_with_card_nonneg a t (some q) note pid ha ht)

/-- A two-user step through `stepPair` keeps all balances non-negative,
for any method that does. -/
theorem stepPair_nonneg (s : State) (i j : Nat)
    (f : User → User → Nat → Except (Err × User × User) (User × User × Payment))
    (hf : ∀ a t pid, 0 ≤ a.balance → 0 ≤ t.balance → pairNonneg (f a t pid))
    (h : balancesNonneg s) :
    balancesNonneg
      (match stepPair s i j f with
       | .ok s' => s'
       | .error (_, s') => s') := by
  cases hi : s.users.get? i with
  | none =>
      simp only [stepPair, hi]
      exact h
  | some a =>
      cases hj : s.users.get? j with
      | none =>
          simp only [stepPair, hi, hj]
          exact h
      | some t =>
          have ha := h a (List.get?_mem hi)
          have ht := h t (List.get?_mem hj)
          have hp := hf a t s.nextId ha ht
          cases hr : f a t s.nextId with
          | error ez =>
              obtain ⟨e, a', t'⟩ := ez
              rw [hr] at hp
              simp only [stepPair, hi, hj, hr]
              exact forall_mem_set (forall_mem_set h hp.1) hp.2
          | ok z =>
              obtain ⟨a', t', p⟩ := z
              rw [hr] at hp
              simp only [stepPair, hi, hj, hr]
              exact forall_mem_set (forall_mem_set h hp.1) hp.2

/-- One absorbed step keeps all balances non-negative. -/
theorem stepAbsorb_nonneg (s : State) (op : Op) (h : balancesNonneg s) :
    balancesNonneg (stepAbsorb s op) := by
  cases op with
  | add_to_balance i a =>
      cases hg : s.users.get? i with
      | none =>
          simp only [stepAbsorb, stepR, hg]
          exact h
      | some u =>
          have hu : 0 ≤ u.balance := h u (List.get?_mem hg)
          cases hr : u.add_to_balance a with
          | error eu =>
              obtain ⟨e, u'⟩ := eu
              obtain rfl : u' = u := add_to_balance_error hr
              simp only [stepAbsorb, stepR, hg, hr]
              exact forall_mem_set h hu
          | ok u' =>
              obtain ⟨q, hq, hq0, hu'⟩ := add_to_balance_ok hr
              simp only [stepAbsorb, stepR, hg, hr]
              refine forall_mem_set h ?_
              rw [hu']
              exact add_nonneg hu hq0.le
  | add_credit_card i c =>
      cases hg : s.users.get? i with
      | none =>
          simp only [stepAbsorb, stepR, hg]
          exact h
      | some u =>
          have hu : 0 ≤ u.balance := h u (List.get?_mem hg)
          cases hr : u.add_credit_card c with
          | error eu =>
              obtain ⟨e, u'⟩ := eu
              obtain rfl : u' = u := add_credit_card_error hr
              simp only [stepAbsorb, stepR, hg, hr]
              exact forall_mem_set h hu
          | ok u' =>
              simp only [stepAbsorb, stepR, hg, hr]
              refine forall_mem_set h ?_
              rw [add_credit_card_ok hr]
              exact hu
  | pay i j a note =>
      exact stepPair_nonneg s i j _
        (fun x y pid hx hy => pay_nonneg x y a note pid hx hy) h
  | pay_with_balance i j q note =>
      exact stepPair_nonneg s i j _
        (fun x y pid hx hy => pay_with_balance_nonneg x y q note pid hx hy) h
  | pay_with_card i j a note =>
      exact stepPair_nonneg s i j _
        (fun x y pid hx hy => pay_with_card_nonneg x y a note pid hx hy) h
  | add_friend i j =>
      cases hi : s.users.get? i with
      | none =>
          simp only [stepAbsorb, stepR, hi]
          exact h
      | some a =>
          cases hj : s.users.get? j with
          | none =>
              simp only [stepAbsorb, stepR, hi, hj]
              exact h
          | some t =>
              have ha := h a (List.get?_mem hi)
              have ht := h t (List.get?_mem hj)
              by_cases hij : i = j
              · subst hij
                rw [hi] at hj
                injection hj with hj'
                subst hj'
                simp only [stepAbsorb, stepR, hi, if_true]
                exact forall_mem_set h ha
              · simp only [stepAbsorb, stepR, hi, hj]
                rw [if_neg hij]
                exact forall_mem_set (forall_mem_set h ha) ht

/-- A whole run keeps all balances non-negative. -/
theorem runOps_nonneg (ops : List Op) (s : State) (h : balancesNonneg s) :
    balancesNonneg (runOps s ops) := by
  induction ops generalizing s with
  | nil => exact h
  | cons op ops ih => exact ih _ (stepAbsorb_nonneg s op h)

/-- Injectivity of a state-level error value. -/
theorem error_state_inj {e e' : Err} {x y : State}
    (h : (Except.error (e, x) : Except (Err × State) State) = .error (e', y)) :
    y = x := by
  simp only [Except.error.injEq, Prod.mk.injEq] at h
  exact h.2.symm

/-- A user with a comfortable balance, for concrete runs. -/
def bobbyRich : User := { username := "Bobby", balance := 10 }

/-- A user with zero balance but a card on file, for concrete runs. -/
def bobbyCard : User :=
  { username := "Bobby", credit_card_number := some "4111111111111111" }

/-- A freshly constructed plain user, for concrete runs. -/
def carolU : User := { username := "Carol" }

/-! ## Claims -/

/-- C1: for a positive numeric amount, `pay` resolves via the balance path
when the payer's balance covers the amount and via the card path
otherwise; the two routing conditions are mutually exclusive and together
exhaustive, so exactly one path is taken; and both branches are reachable:
a payer with balance 10 paying 5 succeeds through the balance path, a
payer with balance 0 and a card paying 5 succeeds through the card
path. -/
theorem pay_routing (a t : User) (q : ℚ) (note : String) (pid : Nat)
    (h0 : 0 < q) :
    ((q ≤ a.balance →
        a.pay t (some q) note pid =
          feedBoth (a.pay_with_balance t q note pid)) ∧
     (a.balance < q →
        a.pay t (some q) note pid =
          feedBoth (a.pay_with_card t (some q) note pid)) ∧
     ¬ (q ≤ a.balance ∧ a.balance < q) ∧
     (q ≤ a.balance ∨ a.balance < q)) ∧
    ((5 : ℚ) ≤ bobbyRich.balance ∧
      (bobbyRich.pay carolU (some 5) "Coffee" 0).isOk = true) ∧
    (bobbyCard.balance < 5 ∧
      (bobbyCard.pay carolU (some 5) "Lunch" 0).isOk = true) := by
  refine ⟨⟨?_, ?_, ?_, le_or_lt q a.balance⟩, ⟨by decide, by decide⟩,
    by decide, by decide⟩
  · intro hb
    simp only [User.pay, ge_iff_le]
    rw [if_neg (not_le.2 h0), if_pos hb]
  · intro hb
    simp only [User.pay, ge_iff_le]
    rw [if_neg (not_le.2 h0), if_neg (not_le.2 hb)]
  · exact fun hc => absurd hc.1 (not_le.2 hc.2)

/-- C1 witness at a concrete input. -/
theorem pay_routing_witness :
    bobbyRich.pay carolU (some 5) "Coffee" 0 =
      feedBoth (bobbyRich.pay_with_balance carolU 5 "Coffee" 0) :=
  (pay_routing bobbyRich carolU 5 "Coffee" 0 (by decide)).1.1 (by decide)

/-- C2: a balance-path payment between users with different usernames, a
positive amount and sufficient balance succeeds, debits the actor by
exactly the amount, credits the target by exactly the amount, and leaves
the sum of the two balances unchanged. -/
theorem pay_with_balance_conserves (a t : User) (q : ℚ) (note : String)
    (pid : Nat) (hne : a.username ≠ t.username) (h0 : 0 < q)
    (hb : q ≤ a.balance) :
    ∃ a' t' p, a.pay_with_balance t q note pid = .ok (a', t', p) ∧
      a'.balance = a.balance - q ∧ t'.balance = t.balance + q ∧
      a'.balance + t'.balance = a.balance + t.balance := by
  simp only [User.pay_with_balance]
  rw [if_neg hne, if_neg (not_le.2 h0), if_neg (not_lt.2 hb),
      add_to_balance_pos t h0]
  exact ⟨_, _, _, rfl, rfl, rfl, by ring⟩

/-- C2 witness at a concrete input. -/
theorem pay_with_balance_conserves_witness :
    ∃ a' t' p, bobbyRich.pay_with_balance carolU 4 "Tea" 0 = .ok (a', t', p) ∧
      a'.balance = bobbyRich.balance - 4 ∧
      t'.balance = carolU.balance + 4 ∧
      a'.balance + t'.balance = bobbyRich.balance + carolU.balance :=
  pay_with_balance_conserves bobbyRich carolU 4 "Tea" 0 (by decide)
    (by decide) (by decide)

/-- C6: a card-path payment between users with different usernames, a
positive amount and a card on file succeeds, leaves the actor (in
particular the actor's balance) unchanged, and credits the target by
exactly the amount. -/
theorem pay_with_card_frame (a t : User) (q : ℚ) (note : String)
    (pid : Nat) (c : String) (hne : a.username ≠ t.username) (h0 : 0 < q)
    (hc : a.credit_card_number = some c) :
    ∃ a' t' p, a.pay_with_card t (some q) note pid = .ok (a', t', p) ∧
      a' = a ∧ a'.balance = a.balance ∧ t'.balance = t.balance + q := by
  simp only [User.pay_with_card]
  rw [if_neg hne, if_neg (not_le.2 h0), hc, add_to_balance_pos t h0]
  exact ⟨_, _, _, rfl, rfl, rfl, rfl⟩

/-- C6 witness at a concrete input. -/
theorem pay_with_card_frame_witness :
    ∃ a' t' p, bobbyCard.pay_with_card carolU (some 5) "Lunch" 0 =
        .ok (a', t', p) ∧
      a' = bobbyCard ∧ a'.balance = bobbyCard.balance ∧
      t'.balance = carolU.balance + 5 :=
  pay_with_card_frame bobbyCard carolU 5 "Lunch" 0 "4111111111111111"
    (by decide) (by decide) rfl

/-- C7: once a user holds a credit card, every further `add_credit_card`
call — whatever the new number — raises the multiple-cards error and
leaves the user, in particular the stored card number, unchanged. -/
theorem add_credit_card_at_most_one (u : User) (c n : String)
    (h : u.credit_card_number = some c) :
    u.add_credit_card n = .error (.multipleCreditCards, u) := by
  unfold User.add_credit_card
  rw [if_pos (show u.credit_card_number.isSome = true by rw [h]; rfl)]

/-- C7 witness at a concrete input: the new number is even one of the
valid ones. -/
theorem add_credit_card_at_most_one_witness :
    bobbyCard.add_credit_card "4242424242424242" =
      .error (.multipleCreditCards, bobbyCard) :=
  add_credit_card_at_most_one bobbyCard "4111111111111111"
    "4242424242424242" rfl

/-- C5: freshly constructed users start at balance 0, and from any state
whose users all have balance 0, every sequence of the public operations —
`add_to_balance`, `add_credit_card`, `pay`, `pay_with_balance`,
`pay_with_card`, `add_friend`, each call succeeding or failing — leaves
every user's balance non-negative. -/
theorem balance_never_negative (s : State) (ops : List Op)
    (h : ∀ u ∈ s.users, u.balance = 0) :
    (∀ name u, User.init name = .ok u → u.balance = 0) ∧
    ∀ u ∈ (runOps s ops).users, 0 ≤ u.balance := by
  constructor
  · intro name u hu
    unfold User.init at hu
    split_ifs at hu
    simp only [Except.ok.injEq] at hu
    rw [← hu]
  · exact runOps_nonneg ops s (fun u hu => (h u hu).ge)

/-- C5 witness at a concrete input. -/
theorem balance_never_negative_witness :
    (∀ name u, User.init name = .ok u → u.balance = 0) ∧
    ∀ u ∈ (runOps { users := [{ username := "Davy" }], nextId := 0 }
        [.add_to_balance 0 (some 7), .pay_with_balance 0 0 3 "x"]).users,
      0 ≤ u.balance :=
  balance_never_negative { users := [{ username := "Davy" }], nextId := 0 }
    [.add_to_balance 0 (some 7), .pay_with_balance 0 0 3 "x"] (by decide)

/-- C8: a self-payment `u.pay(u, amount, note)` with a positive numeric
amount always raises `SAME_USER_ERROR` — whichever routing branch the
balance selects — and the raise carries the global state completely
unchanged: no balance, feed or card is mutated. -/
theorem pay_self_always_fails (s : State) (i : Nat) (q : ℚ) (note : String)
    (u : User) (hu : s.users.get? i = some u) (h0 : 0 < q) :
    stepR s (.pay i i (some q) note) = .error (.sameUser, s) := by
  simp only [stepR, stepPair, hu]
  rw [pay_self u u rfl h0 note s.nextId]
  show (Except.error (Err.sameUser,
      { users := (s.users.set i u).set i u, nextId := s.nextId })
        : Except (Err × State) State) =
    .error (.sameUser, s)
  rw [set_self_of_get hu]
  rw [set_self_of_get hu]

/-- C8 witness at a concrete input. -/
theorem pay_self_always_fails_witness :
    stepR { users := [bobbyRich], nextId := 0 } (.pay 0 0 (some 5) "x") =
      .error (.sameUser, { users := [bobbyRich], nextId := 0 }) :=
  pay_self_always_fails { users := [bobbyRich], nextId := 0 } 0 5 "x"
    bobbyRich rfl (by decide)

/-- A two-user step whose method raises with unmutated users raises with
the whole state unmutated. -/
theorem stepPair_error_atomic {s s' : State} {i j : Nat}
    {f : User → User → Nat → Except (Err × User × User) (User × User × Payment)}
    {e : Err}
    (hf : ∀ a t pid e2 a' t', f a t pid = .error (e2, a', t') →
      a' = a ∧ t' = t)
    (h : stepPair s i j f = .error (e, s')) : s' = s := by
  cases hi : s.users.get? i with
  | none =>
      simp only [stepPair, hi] at h
      rw [error_state_inj h]
  | some a =>
      cases hj : s.users.get? j with
      | none =>
          simp only [stepPair, hi, hj] at h
          rw [error_state_inj h]
      | some t =>
          cases hr : f a t s.nextId with
          | error ez =>
              obtain ⟨e2, a', t'⟩ := ez
              obtain ⟨rfl, rfl⟩ : a' = a ∧ t' = t :=
                hf a t s.nextId e2 a' t' hr
              simp only [stepPair, hi, hj, hr] at h
              rw [error_state_inj h, set_self_of_get hi, set_self_of_get hj]
          | ok z =>
              obtain ⟨a', t', p⟩ := z
              simp only [stepPair, hi, hj, hr] at h
              simp at h

/-- C9: every raising execution of a public operation is atomic — the
state carried by the raise (the state at the moment the exception
propagates) is exactly the input state; validation precedes every
mutation on every path. -/
theorem step_error_atomic (s s' : State) (op : Op) (e : Err)
    (h : stepR s op = .error (e, s')) : s' = s := by
  cases op with
  | add_to_balance i a =>
      cases hg : s.users.get? i with
      | none =>
          simp only [stepR, hg] at h
          rw [error_state_inj h]
      | some u =>
          cases hr : u.add_to_balance a with
          | error eu =>
              obtain ⟨e2, u'⟩ := eu
              obtain rfl : u' = u := add_to_balance_error hr
              simp only [stepR, hg, hr] at h
              rw [error_state_inj h, set_self_of_get hg]
          | ok u' =>
              simp only [stepR, hg, hr] at h
              simp at h
  | add_credit_card i c =>
      cases hg : s.users.get? i with
      | none =>
          simp only [stepR, hg] at h
          rw [error_state_inj h]
      | some u =>
          cases hr : u.add_credit_card c with
          | error eu =>
              obtain ⟨e2, u'⟩ := eu
              obtain rfl : u' = u := add_credit_card_error hr
              simp only [stepR, hg, hr] at h
              rw [error_state_inj h, set_self_of_get hg]
          | ok u' =>
              simp only [stepR, hg, hr] at h
              simp at h
  | pay i j a note =>
      exact stepPair_error_atomic
        (fun x y pid e2 x' y' hr => pay_error hr) h
  | pay_with_balance i j q note =>
      exact stepPair_error_atomic
        (fun x y pid e2 x' y' hr => pay_with_balance_error hr) h
  | pay_with_card i j a note =>
      exact stepPair_error_atomic
        (fun x y pid e2 x' y' hr => pay_with_card_error hr) h
  | add_friend i j =>
      cases hi : s.users.get? i with
      | none =>
          simp only [stepR, hi] at h
          rw [error_state_inj h]
      | some a =>
          cases hj : s.users.get? j with
          | none =>
              simp only [stepR, hi, hj] at h
              rw [error_state_inj h]
          | some t =>
              simp only [stepR, hi, hj] at h
              split_ifs at h

/-- C9 witness at a concrete input: `add_to_balance` with a non-numeric
string raises and the carried state equals the input state. -/
theorem step_error_atomic_witness :
    ({ users := [carolU], nextId := 0 } : State) =
      { users := [carolU], nextId := 0 } :=
  step_error_atomic { users := [carolU], nextId := 0 }
    { users := [carolU], nextId := 0 } (.add_to_balance 0 none)
    .valueErrorFloat (by rfl)

/-- C3: evaluation of the demo scenario.  After Bobby's `Coffee` payment,
Carol holds exactly 15.00 with her card on file; the `Lunch` payment of
15.00 therefore satisfies `self.balance >= amount` and routes via the
**balance** path: Carol's balance becomes 0.00 (it would remain 15.00 on
the card path), Bobby's becomes 15.00, and the two feed messages are the
ones the demo test expects. -/
theorem demo_lunch_routes_via_balance_path :
    ((demoAfterCoffee.users.get? 1).map User.balance = some 15) ∧
    ((demoAfterCoffee.users.get? 1).map User.credit_card_number =
      some (some "4242424242424242")) ∧
    ((demoAfterLunch.users.get? 1).map User.balance = some 0) ∧
    ((demoAfterLunch.users.get? 0).map User.balance = some 15) ∧
    ((demoAfterLunch.users.get? 0).map User.retrieve_feed =
      some ["Bobby paid Carol $5.00 for Coffee",
            "Carol paid Bobby $15.00 for Lunch"]) := by
  have hf5 : formatAmount 5 = "5.00" := by
    unfold formatAmount
    rw [show Int.floor ((5 : ℚ) * 100 + 1 / 2) = 500 by norm_num]
    rfl
  have hf15 : formatAmount 15 = "15.00" := by
    unfold formatAmount
    rw [show Int.floor ((15 : ℚ) * 100 + 1 / 2) = 1500 by norm_num]
    rfl
  have e1 : demoAfterCoffee =
      { users :=
          [ { username := "Bobby",
              credit_card_number := some "4111111111111111", balance := 0,
              feed := [.payment { id := 0, amount := 5, actor := "Bobby",
                                  target := "Carol", note := "Coffee" }] },
            { username := "Carol",
              credit_card_number := some "4242424242424242", balance := 15,
              feed := [.payment { id := 0, amount := 5, actor := "Bobby",
                                  target := "Carol", note := "Coffee" }] } ],
        nextId := 1 } := by
    norm_num [demoAfterCoffee, demoInitial, runOps, List.foldl, stepAbsorb,
      stepR, stepPair, User.pay, User.pay_with_balance, feedBoth,
      User.add_to_balance, List.set]
    simp
  have e2 : demoAfterLunch =
      { users :=
          [ { username := "Bobby",
              credit_card_number := some "4111111111111111", balance := 15,
              feed := [.payment { id := 0, amount := 5, actor := "Bobby",
                                  target := "Carol", note := "Coffee" },
                       .payment { id := 1, amount := 15, actor := "Carol",
                                  target := "Bobby", note := "Lunch" }] },
            { username := "Carol",
              credit_card_number := some "4242424242424242", balance := 0,
              feed := [.payment { id := 0, amount := 5, actor := "Bobby",
                                  target := "Carol", note := "Coffee" },
                       .payment { id := 1, amount := 15, actor := "Carol",
                                  target := "Bobby", note := "Lunch" }] } ],
        nextId := 2 } := by
    unfold demoAfterLunch
    rw [e1]
    norm_num [runOps, List.foldl, stepAbsorb, stepR, stepPair, User.pay,
      User.pay_with_balance, feedBoth, User.add_to_balance, List.set]
    simp
  rw [e1, e2]
  refine ⟨rfl, rfl, rfl, rfl, ?_⟩
  simp only [List.get?_cons_zero, Option.map_some', User.retrieve_feed,
    List.map, FeedLog.get_feed_msg]
  rw [hf5, hf15]
  rfl

/-- C4 counterexample: `"Bobby\n"` does not match the full-string rule
(it contains a newline, a character outside the class), yet construction
succeeds and stores `"Bobby\n"` verbatim, because Python's `$` also
matches just before a trailing newline. -/
theorem username_trailing_newline_accepted :
    User.init "Bobby\n" = .ok { username := "Bobby\n" } ∧
    matchesCore "Bobby\n" = false := by
  constructor
  · unfold User.init
    rw [if_pos (show is_valid_username "Bobby\n" = true by decide)]
  · decide

/-- C4 (amended): construction succeeds — storing exactly the given
string — if and only if the string matches the full-string rule (4–15
characters from `[A-Za-z0-9_-]`) **or** consists of such a match followed
by one final newline (Python `$` semantics); every other string is
rejected with the username error and no user is produced. -/
theorem username_validation_amended (s : String) :
    (User.init s = .ok { username := s } ↔
      (matchesCore s ||
        (s.data.getLast? = some (Char.ofNat 10) &&
          matchesCore (s.dropRight 1))) = true) ∧
    ((matchesCore s ||
        (s.data.getLast? = some (Char.ofNat 10) &&
          matchesCore (s.dropRight 1))) = false →
      User.init s = .error .usernameNotValid) := by
  have hiv : is_valid_username s =
      (matchesCore s ||
        (s.data.getLast? = some (Char.ofNat 10) &&
          matchesCore (s.dropRight 1))) := by
    unfold is_valid_username
    norm_num
  constructor
  · constructor
    · intro h
      unfold User.init at h
      split_ifs at h with hv
      exact hiv ▸ hv
    · intro hv
      unfold User.init
      rw [if_pos (hiv.trans hv)]
  · intro hv
    unfold User.init
    rw [if_neg (show ¬ is_valid_username s = true by rw [hiv, hv]; simp)]

/-- C4 witness at a concrete input: a too-short username is rejected. -/
theorem username_validation_amended_witness :
    User.init "Bo" = .error Err.usernameNotValid :=
  (username_validation_amended "Bo").2 (by decide)

/-- C10: `add_friend` with the caller itself as the new friend performs no
self-check and succeeds: the caller is appended to their own friends
list, and the one `FriendshipLog` created by the call is appended twice
to the caller's own feed (once as the caller's copy, once as the new
friend's copy), so `retrieve_feed` shows the "added … as a friend."
message twice. -/
theorem add_friend_self (s : State) (i : Nat) (u : User)
    (h : s.users.get? i = some u) :
    ∃ u', stepR s (.add_friend i i) =
        .ok { users := s.users.set i u', nextId := s.nextId + 1 } ∧
      u'.friends = u.friends ++ [u.username] ∧
      u'.feed = u.feed ++
        [FeedLog.friendship
          { id := s.nextId, user1 := u.username, user2 := u.username,
            status := STATUS_ADDED },
         FeedLog.friendship
          { id := s.nextId, user1 := u.username, user2 := u.username,
            status := STATUS_ADDED }] ∧
      u'.retrieve_feed = u.retrieve_feed ++
        [u.username ++ " " ++ STATUS_ADDED ++ " " ++ u.username
          ++ " as a friend.",
         u.username ++ " " ++ STATUS_ADDED ++ " " ++ u.username
          ++ " as a friend."] := by
  refine ⟨{ u with
      friends := u.friends ++ [u.username],
      feed := (u.feed ++
          [.friendship
            { id := s.nextId, user1 := u.username, user2 := u.username,
              status := STATUS_ADDED }]) ++
        [.friendship
          { id := s.nextId, user1 := u.username, user2 := u.username,
            status := STATUS_ADDED }] }, ?_, rfl, ?_, ?_⟩
  · simp only [stepR, h, if_true]
  · simp [List.append_assoc]
  · simp [User.retrieve_feed, FeedLog.get_feed_msg, List.append_assoc]

/-- C10 witness at a concrete input. -/
theorem add_friend_self_witness :
    ∃ u', stepR { users := [carolU], nextId := 0 } (.add_friend 0 0) =
        .ok { users := [carolU].set 0 u', nextId := 1 } ∧
      u'.friends = carolU.friends ++ [carolU.username] ∧
      u'.feed = carolU.feed ++
        [FeedLog.friendship
          { id := 0, user1 := carolU.username, user2 := carolU.username,
            status := STATUS_ADDED },
         FeedLog.friendship
          { id := 0, user1 := carolU.username, user2 := carolU.username,
            status := STATUS_ADDED }] ∧
      u'.retrieve_feed = carolU.retrieve_feed ++
        [carolU.username ++ " " ++ STATUS_ADDED ++ " " ++ carolU.username
          ++ " as a friend.",
         carolU.username ++ " " ++ STATUS_ADDED ++ " " ++ carolU.username
          ++ " as a friend."] :=
  add_friend_self { users := [carolU], nextId := 0 } 0 carolU rfl

end MiniVenmoModel
